import Mathlib

/-!
Verification of the connection-lifecycle and statement-execution core of
`Snowflake.Common` (`src/connection.ts`), as a shallow embedding in Lean 4.

Modelling conventions:
* TS strings become `String`; optional (possibly-`undefined`) values become
  `Option String`; JavaScript string truthiness (`undefined`/`""` are falsy)
  becomes `truthy`.
* `process.env` is passed explicitly as an `Env` record.
* Thrown configuration errors become `Except String`.
* Asynchronous callback code (connect / execute / destroy) becomes explicit
  state passing over an external-collaborator `Behavior` record supplying the
  outcome of each I/O step, together with an ordered trace of `ConnEvent`s
  describing what was issued on the connection, in issue order.
-/

/-- JavaScript nullish coalescing `a ?? b` on possibly-undefined strings
(`some "" ?? b` keeps `""`, exactly like `??`). -/
def jsOr (a b : Option String) : Option String :=
  match a with
  | some v => some v
  | none => b

/-- JavaScript truthiness of a possibly-undefined string: `undefined` and the
empty string are falsy, everything else truthy. -/
def truthy : Option String → Bool
  | none => false
  | some s => s != ""

/-- `String.trim` of JavaScript, on the character list (drop whitespace from
both ends). -/
def trimStr (s : String) : String :=
  ⟨((s.data.dropWhile Char.isWhitespace).reverse.dropWhile Char.isWhitespace).reverse⟩

/-- Lower-case a character list (ASCII case folding, as the `/i` regex flag
does on the ASCII patterns used in the source). -/
def toLowerL (l : List Char) : List Char := l.map Char.toLower

/-- Upper-case a character list (JavaScript `toUpperCase` on ASCII data). -/
def toUpperL (l : List Char) : List Char := l.map Char.toUpper

/-- Case-insensitive "starts with" test: does `l` begin with the (already
lower-case) pattern `pre`? -/
def startsWithCI (pre : List Char) (l : List Char) : Bool :=
  toLowerL (l.take pre.length) == pre

/-- `connection.ts` log levels. -/
inductive LogLevel where
  | MINIMAL
  | VERBOSE
deriving DecidableEq, Repr

/-- The caller-supplied partial configuration (`SnowflakeConnectionConfig`).
The TS `logLevel` field is typed `LogLevel`, but it is fed to
`normalizeLogLevel` together with the raw env string, so it is carried here as
its runtime string value. -/
structure SnowflakeConnectionConfig where
  account : Option String := none
  username : Option String := none
  password : Option String := none
  privateKeyPath : Option String := none
  role : Option String := none
  logLevel : Option String := none
  warehouse : Option String := none
  database : Option String := none
  schema : Option String := none
deriving DecidableEq, Repr

/-- The environment variables read by `resolveConfig` (`process.env`). -/
structure Env where
  SNOWFLAKE_ACCOUNT : Option String := none
  SNOWFLAKE_USER : Option String := none
  SNOWFLAKE_PASSWORD : Option String := none
  SNOWFLAKE_PRIVATE_KEY_PATH : Option String := none
  SNOWFLAKE_ROLE : Option String := none
  SNOWFLAKE_LOG_LEVEL : Option String := none
  SNOWFLAKE_WAREHOUSE : Option String := none
  SNOWFLAKE_DATABASE : Option String := none
  SNOWFLAKE_SCHEMA : Option String := none
deriving DecidableEq, Repr

/-- `ResolvedSnowflakeConnectionConfig`: the fully resolved configuration. -/
structure ResolvedSnowflakeConnectionConfig where
  account : String
  username : String
  role : String
  password : Option String
  privateKeyPath : Option String
  logLevel : LogLevel
  warehouse : Option String
  database : Option String
  schema : Option String
deriving DecidableEq, Repr

/-- `const ROLE_ERROR = ...` (`connection.ts` line 62). -/
def ROLE_ERROR : String := "Missing Snowflake ROLE-set SNOWFLAKE_ROLE or input it, dummy!"

/-- `normalizeLogLevel` (`connection.ts` lines 119-122):
`(value ?? 'MINIMAL').toString().trim().toUpperCase() === 'VERBOSE'`. -/
def normalizeLogLevel (value : Option String) : LogLevel :=
  if (⟨toUpperL (trimStr (value.getD "MINIMAL")).data⟩ : String) == "VERBOSE" then
    LogLevel.VERBOSE
  else
    LogLevel.MINIMAL

/-- `resolveConfig` (`connection.ts` lines 64-92): merge explicit parameters
with environment defaults, then validate, throwing on the first failing check
in the fixed order account, username, auth, role. -/
def resolveConfig (pc : SnowflakeConnectionConfig) (env : Env) :
    Except String ResolvedSnowflakeConnectionConfig :=
  let account := jsOr pc.account env.SNOWFLAKE_ACCOUNT
  let username := jsOr pc.username env.SNOWFLAKE_USER
  let password := jsOr pc.password env.SNOWFLAKE_PASSWORD
  let privateKeyPath := jsOr pc.privateKeyPath env.SNOWFLAKE_PRIVATE_KEY_PATH
  let role := jsOr pc.role env.SNOWFLAKE_ROLE
  let logLevel := normalizeLogLevel (jsOr pc.logLevel env.SNOWFLAKE_LOG_LEVEL)
  let warehouse := jsOr pc.warehouse env.SNOWFLAKE_WAREHOUSE
  let database := jsOr pc.database env.SNOWFLAKE_DATABASE
  let schema := jsOr pc.schema env.SNOWFLAKE_SCHEMA
  if !truthy account then
    Except.error "Missing Snowflake account - set SNOWFLAKE_ACCOUNT or input it, dummy!"
  else if !truthy username then
    Except.error "Missing Snowflake user - set SNOWFLAKE_USER or input it, dummy!"
  else if !truthy password && !truthy privateKeyPath then
    Except.error "Missing Snowflake auth - provide SNOWFLAKE_PASSWORD or SNOWFLAKE_PRIVATE_KEY_PATH, dummy!"
  else if !truthy role || trimStr (role.getD "") == "" then
    Except.error ROLE_ERROR
  else
    Except.ok
      { account := account.getD ""
        username := username.getD ""
        role := role.getD ""
        password := password
        privateKeyPath := privateKeyPath
        logLevel := logLevel
        warehouse := warehouse
        database := database
        schema := schema }

/-- `{ identifier, url }` returned by `normalizeAccount`. -/
structure AccountIdentity where
  identifier : String
  url : String
deriving DecidableEq, Repr

/-- The regex replace `^https?:\/\//i`: strip one leading `http://` or
`https://`, case-insensitively. -/
def stripProtocol (s : String) : String :=
  if startsWithCI "https://".data s.data then ⟨s.data.drop 8⟩
  else if startsWithCI "http://".data s.data then ⟨s.data.drop 7⟩
  else s

/-- The regex test `\.snowflakecomputing\.com$/i`: does `s` end with
`.snowflakecomputing.com`, case-insensitively? (Checked on the reversed
character list.) -/
def endsWithSnowflakeSuffix (s : String) : Bool :=
  startsWithCI ".snowflakecomputing.com".data.reverse s.data.reverse

/-- The regex replace `\.snowflakecomputing\.com$/i`: strip one trailing
`.snowflakecomputing.com`, case-insensitively. -/
def stripSnowflakeSuffix (s : String) : String :=
  if endsWithSnowflakeSuffix s then
    ⟨(s.data.reverse.drop ".snowflakecomputing.com".length).reverse⟩
  else s

/-- `normalizeAccount` (`connection.ts` lines 102-117): trim, strip a leading
protocol, cut at the first `/` (JS `split('/')[0]`), cut at the first `:`
(drop a port), strip the Snowflake domain suffix; fail if the identifier came
out empty. -/
def normalizeAccount (account : String) : Except String AccountIdentity :=
  let trimmed := trimStr account
  let withoutProtocol := stripProtocol trimmed
  let host : String := ⟨withoutProtocol.data.takeWhile (· != '/')⟩
  let hostWithoutPort : String := ⟨host.data.takeWhile (· != ':')⟩
  let identifier := stripSnowflakeSuffix hostWithoutPort
  if identifier == "" then
    Except.error "Missing Snowflake account - set SNOWFLAKE_ACCOUNT or input it, dummy!"
  else
    Except.ok { identifier := identifier, url := identifier ++ ".snowflakecomputing.com" }

/-- The character class `[A-Za-z0-9_$]` of the `quoteIdentifier` regex. -/
def isIdentTailChar (c : Char) : Bool :=
  c.isAlphanum || c == '_' || c == '$'

/-- The regex test `^[A-Za-z_][A-Za-z0-9_$]*$` of `quoteIdentifier`. -/
def isBareIdentifier (value : String) : Bool :=
  match value.data with
  | [] => false
  | c :: cs => (c.isAlpha || c == '_') && cs.all isIdentTailChar

/-- `value.replace(/"/g, '""')`: double every internal double quote. -/
def escapeQuotes (value : String) : String :=
  ⟨(value.data.map (fun c => if c == '"' then ['"', '"'] else [c])).flatten⟩

/-- `quoteIdentifier` (`connection.ts` lines 124-129). -/
def quoteIdentifier (value : String) : String :=
  if isBareIdentifier value then value
  else "\"" ++ escapeQuotes value ++ "\""

/-- Provider-reported errors (`SnowflakeError`), carried as an opaque message. -/
abbrev SnowflakeError := String

/-- The session-state record optionally exposed by
`ExtendedConnection.getSessionState`. -/
structure SessionState where
  currentWarehouse : Option String := none
  currentDatabase : Option String := none
  currentSchema : Option String := none
  currentRole : Option String := none
deriving DecidableEq, Repr

/-- The `defaultContext` sub-record of `SnowflakeConnectionResult`. -/
structure DefaultContext where
  warehouse : Option String
  database : Option String
  schema : Option String
  role : Option String
deriving DecidableEq, Repr

/-- `buildDefaultContext` (`connection.ts` lines 292-304): `undefined` when the
connection exposes no session-state introspection, else the four current
fields. The connection's optional `getSessionState` member is modelled as an
`Option SessionState` (`none` covers both an absent accessor and a falsy
return). -/
def buildDefaultContext (sessionState : Option SessionState) : Option DefaultContext :=
  match sessionState with
  | none => none
  | some s =>
      some { warehouse := s.currentWarehouse
             database := s.currentDatabase
             schema := s.currentSchema
             role := s.currentRole }

/-- A JavaScript runtime value of unknown type, as the health-probe row fields
are typed `unknown`: either a string, or a non-string value carrying its
string coercion (`String(v)`) and its truthiness. -/
inductive JsVal where
  | vstr (s : String)
  | vother (coerced : String) (truthyFlag : Bool)
deriving DecidableEq, Repr

/-- JavaScript truthiness of a `JsVal`. -/
def JsVal.truthyVal : JsVal → Bool
  | .vstr s => s != ""
  | .vother _ t => t

/-- JavaScript `String(v)` / `v.toString()` coercion of a `JsVal`. -/
def JsVal.coerceToString : JsVal → String
  | .vstr s => s
  | .vother c _ => c

/-- The first row returned by the health probe, with the column aliases the
extraction code looks at (absent fields are `none`). -/
structure HealthRow where
  SERVER_TIME : Option JsVal := none
  server_time : Option JsVal := none
  SESSION_ID : Option JsVal := none
  session_id : Option JsVal := none
deriving DecidableEq, Repr

/-- A result row of an arbitrary statement (`Record<string, unknown>`),
carried opaquely. -/
structure Row where
  fields : List (String × JsVal)
deriving DecidableEq, Repr

/-- Modelled from the spec: the host runtime's local clock value
(`new Date()`), which the code renders with `Date.prototype.toISOString`. -/
structure JsDate where
  year : Nat
  month : Nat
  day : Nat
  hour : Nat
  minute : Nat
  second : Nat
  millisecond : Nat
deriving DecidableEq, Repr

/-- Zero-pad a numeral to two digits. -/
def pad2 (n : Nat) : String := if n < 10 then "0" ++ toString n else toString n

/-- Zero-pad a numeral to three digits. -/
def pad3 (n : Nat) : String :=
  if n < 10 then "00" ++ toString n else if n < 100 then "0" ++ toString n else toString n

/-- Zero-pad a numeral to four digits. -/
def pad4 (n : Nat) : String :=
  if n < 10 then "000" ++ toString n
  else if n < 100 then "00" ++ toString n
  else if n < 1000 then "0" ++ toString n
  else toString n

/-- Modelled from the spec: `Date.prototype.toISOString`, the ECMAScript
`YYYY-MM-DDTHH:mm:ss.sssZ` rendering used for the local-clock fallback. -/
def toISOString (d : JsDate) : String :=
  pad4 d.year ++ "-" ++ pad2 d.month ++ "-" ++ pad2 d.day ++ "T" ++
    pad2 d.hour ++ ":" ++ pad2 d.minute ++ ":" ++ pad2 d.second ++ "." ++
    pad3 d.millisecond ++ "Z"

/-- One observable step performed on the live connection by the session
lifecycle, in issue order. -/
inductive ConnEvent where
  /-- `connection.execute` was issued with this `sqlText`. -/
  | execStmt (sql : String)
  /-- The caller-supplied unit of work was invoked. -/
  | fnInvoked
  /-- `connection.destroy` was invoked. -/
  | destroyCalled
  /-- `console.warn('Failed to close Snowflake connection cleanly:', ...)`. -/
  | warnDestroy
  /-- `console.warn('Failed to fetch server time, falling back to local clock.', ...)`. -/
  | warnHealth
deriving DecidableEq, Repr

/-- The external session provider's responses, one logical connection per
call: the error (if any) each I/O step reports, keyed by statement text where
relevant, plus the optional accessors of the `ExtendedConnection`. -/
structure Behavior where
  connectErr : Option SnowflakeError := none
  execErr : String → Option SnowflakeError := fun _ => none
  destroyErr : Option SnowflakeError := none
  getId : Option String := none
  sessionState : Option SessionState := none
  healthRow : Option HealthRow := none
  stmtId : String → Option String := fun _ => none
  rows : String → Option (List Row) := fun _ => none

/-- `ConnectionOptions` as assembled by `createConnectionContext` (lines
137-143): `password`/`privateKeyPath` keys are present only when the resolved
value is truthy (the conditional object spreads). -/
structure ConnectionOptions where
  account : String
  username : String
  role : String
  password : Option String
  privateKeyPath : Option String
deriving DecidableEq, Repr

/-- Modelled from the spec: JSON string escaping as performed by the host
runtime's `JSON.stringify` on the flat string records logged here (double
quote and backslash escaped; the fields involved contain no control
characters in any claim). -/
def jsonEscapeChar (c : Char) : List Char :=
  if c == '"' then ['\\', '"'] else if c == '\\' then ['\\', '\\'] else [c]

/-- A JSON string literal. -/
def jsonString (s : String) : String :=
  "\"" ++ (⟨(s.data.map jsonEscapeChar).flatten⟩ : String) ++ "\""

/-- One `"key":"value"` JSON member. -/
def jsonMember (k v : String) : String := jsonString k ++ ":" ++ jsonString v

/-- `JSON.stringify(sanitized)` for the redacted snapshot of lines 146-151:
insertion-ordered keys `account, username, role, password?, privateKeyPath?`;
the explicitly-`undefined` members are omitted by `JSON.stringify`, so
`password` appears (as the fixed redaction marker) only when the connection
options carry a truthy password, and likewise `privateKeyPath` (as the
presence marker). -/
def sanitizedOptionsJson (opts : ConnectionOptions) : String :=
  "\x7b" ++
    String.intercalate ","
      ([jsonMember "account" opts.account,
        jsonMember "username" opts.username,
        jsonMember "role" opts.role] ++
       (if truthy opts.password then [jsonMember "password" "***redacted***"] else []) ++
       (if truthy opts.privateKeyPath then [jsonMember "privateKeyPath" "[provided]"] else []))
  ++ "\x7d"

/-- `ConnectionContext` (`connection.ts` lines 38-43). -/
structure ConnectionContext where
  config : ResolvedSnowflakeConnectionConfig
  accountIdentifier : String
  debugLog : List String
  verbose : Bool
deriving DecidableEq, Repr

/-- `createConnectionContext` (`connection.ts` lines 131-166): resolve the
config, normalize the account, assemble the connection options with
conditional auth keys, and under `VERBOSE` push the redacted snapshot onto the
debug log before any connect happens. (`applySdkLogLevel` is a process-global
SDK toggle with no bearing on these claims and carries no modelled state;
`snowflake.createConnection` is the external collaborator represented by
`Behavior`.) -/
def createConnectionContext (pc : SnowflakeConnectionConfig) (env : Env) :
    Except String (ConnectionOptions × ConnectionContext) :=
  match resolveConfig pc env with
  | .error msg => .error msg
  | .ok config =>
    match normalizeAccount config.account with
    | .error msg => .error msg
    | .ok identity =>
      let verbose := config.logLevel == LogLevel.VERBOSE
      let connectionOptions : ConnectionOptions :=
        { account := identity.identifier
          username := config.username
          role := config.role
          password := if truthy config.password then config.password else none
          privateKeyPath := if truthy config.privateKeyPath then config.privateKeyPath else none }
      let debugLog : List String :=
        if verbose then
          ["[VERBOSE] Initializing Snowflake connection with options: " ++
            sanitizedOptionsJson connectionOptions]
        else []
      .ok (connectionOptions,
        { config := config
          accountIdentifier := identity.identifier
          debugLog := debugLog
          verbose := verbose })

/-- JavaScript nullish coalescing `a ?? b` on possibly-undefined `unknown`
values. -/
def jsOrVal (a b : Option JsVal) : Option JsVal :=
  match a with
  | some v => some v
  | none => b

/-- `HealthCheck` (`connection.ts` lines 168-172). -/
structure HealthCheck where
  serverTime : String
  sessionId : String
  queryId : String
deriving DecidableEq, Repr

/-- The fixed introspection statement of the health probe (line 175). -/
def SQL : String := "select current_timestamp() as server_time, current_session() as session_id"

/-- Modelled from the spec: the diagnostic `JSON.stringify(row)` rendering of
the health row in the verbose trace (claims never inspect this entry's
text). -/
def healthRowJson (row : Option HealthRow) : String :=
  match row with
  | none => "undefined"
  | some r =>
      "\x7b" ++
        String.intercalate ","
          ((if let some v := r.SERVER_TIME then
              [jsonMember "SERVER_TIME" v.coerceToString] else []) ++
           (if let some v := r.server_time then
              [jsonMember "server_time" v.coerceToString] else []) ++
           (if let some v := r.SESSION_ID then
              [jsonMember "SESSION_ID" v.coerceToString] else []) ++
           (if let some v := r.session_id then
              [jsonMember "session_id" v.coerceToString] else []))
      ++ "\x7d"

/-- The invocation `connection.getId()` at line 209, where the optional
accessor is called unguarded. An absent accessor would raise a `TypeError`
inside the SDK callback in JavaScript (the promise never settles); no claim
exercises that corner, and it is modelled as the empty identifier. -/
def getIdCall (getId : Option String) : String := getId.getD ""

/-- `fetchHealth` (`connection.ts` lines 174-217): push the verbose trace
entry, execute the fixed probe statement, and on success extract
`serverTime`/`sessionId`/`queryId` exactly as lines 188-211 do, falling back
to the local clock (`now`) rendered as ISO-8601 when no usable server time
came back. -/
def fetchHealth (b : Behavior) (logLevel : LogLevel) (debugLog : List String) (now : JsDate) :
    List ConnEvent × List String × Except SnowflakeError HealthCheck :=
  let log1 := debugLog ++
    (if logLevel == LogLevel.VERBOSE then
      ["[VERBOSE] Executing SQL to fetch server timestamp and session id: " ++ SQL]
    else [])
  match b.execErr SQL with
  | some e => ([ConnEvent.execStmt SQL], log1, Except.error e)
  | none =>
    let row := b.healthRow
    let log2 := log1 ++
      (if logLevel == LogLevel.VERBOSE then
        ["[VERBOSE] Snowflake returned health row: " ++ healthRowJson row]
      else [])
    let rawTime :=
      jsOrVal (jsOrVal (row.bind (·.SERVER_TIME)) (row.bind (·.server_time)))
        ((row.bind (·.SERVER_TIME)).map (fun v => JsVal.vstr v.coerceToString))
    let sessionIdVal := jsOrVal (row.bind (·.SESSION_ID)) (row.bind (·.session_id))
    let serverTime :=
      match rawTime with
      | some (.vstr s) => if s.length > 0 then s else toISOString now
      | some v => if v.truthyVal then v.coerceToString else toISOString now
      | none => toISOString now
    let statementId := (b.stmtId SQL).getD "UNKNOWN"
    let sessionId :=
      match sessionIdVal with
      | some (.vstr s) => s
      | _ => getIdCall b.getId
    ([ConnEvent.execStmt SQL], log2,
      Except.ok { serverTime := serverTime, sessionId := sessionId, queryId := statementId })

/-- The `statements` list built by `applyDesiredContext` (`connection.ts`
lines 255-268): one `use <kind> <quoted-identifier>` per truthy context field,
in the fixed order role, warehouse, database, schema. -/
def contextStatements (config : ResolvedSnowflakeConnectionConfig) : List String :=
  (if config.role != "" then ["use role " ++ quoteIdentifier config.role] else []) ++
  (if truthy config.warehouse then
    ["use warehouse " ++ quoteIdentifier (config.warehouse.getD "")] else []) ++
  (if truthy config.database then
    ["use database " ++ quoteIdentifier (config.database.getD "")] else []) ++
  (if truthy config.schema then
    ["use schema " ++ quoteIdentifier (config.schema.getD "")] else [])

/-- Outcome of running the context statements: the statements actually issued
(in order), the debug log afterwards, and the first error if one occurred. -/
structure ApplyResult where
  events : List ConnEvent
  debugLog : List String
  err : Option SnowflakeError
deriving Repr

/-- The `for ... await executeStatement(...)` loop of `applyDesiredContext`
(lines 270-275) together with `executeStatement` (lines 278-290): issue each
statement in order, awaiting its completion; stop at (and propagate) the first
error, so no later statement is issued. Under `VERBOSE` each statement is
traced before being issued. -/
def runStatements (b : Behavior) (logLevel : LogLevel) (debugLog : List String) :
    List String → ApplyResult
  | [] => { events := [], debugLog := debugLog, err := none }
  | sql :: rest =>
    let log1 := debugLog ++
      (if logLevel == LogLevel.VERBOSE then ["[VERBOSE] Executing context SQL: " ++ sql] else [])
    match b.execErr sql with
    | some e => { events := [ConnEvent.execStmt sql], debugLog := log1, err := some e }
    | none =>
      let r := runStatements b logLevel log1 rest
      { events := ConnEvent.execStmt sql :: r.events, debugLog := r.debugLog, err := r.err }

/-- `applyDesiredContext` (`connection.ts` lines 250-276). -/
def applyDesiredContext (b : Behavior) (config : ResolvedSnowflakeConnectionConfig)
    (debugLog : List String) : ApplyResult :=
  runStatements b config.logLevel debugLog (contextStatements config)

/-- What a caller-supplied unit of work did: the connection events it issued,
the debug log as it left it, and its settled outcome. -/
structure FnRes (τ : Type) where
  events : List ConnEvent
  debugLog : List String
  outcome : Except SnowflakeError τ

/-- The settled observable behaviour of one `withSnowflakeConnection` call
whose configuration phase succeeded: the ordered trace of connection events up
to the point the promise settles, the final debug log, and the outcome the
promise surfaces. -/
structure RunResult (τ : Type) where
  events : List ConnEvent
  debugLog : List String
  outcome : Except SnowflakeError τ

/-- `withSnowflakeConnection` (`connection.ts` lines 219-248):
configuration errors are raised before any I/O (outer `Except.error`);
a connect error is rejected as-is, with nothing else done on the connection;
on connect success the desired context is applied, then the unit of work runs,
and the connection is destroyed exactly once on every path before the promise
settles: after the unit of work resolves the destroy callback warns when
destroy reported an error and resolves the original result (lines 236-241),
while on unit-of-work (or context-application) failure the destroy callback
ignores destroy's error and rejects the original error (lines 243-245). -/
def withSnowflakeConnection (τ : Type) (pc : SnowflakeConnectionConfig) (env : Env)
    (b : Behavior) (fn : ConnectionContext → List String → FnRes τ) :
    Except String (RunResult τ) :=
  match createConnectionContext pc env with
  | .error msg => .error msg
  | .ok (_opts, context) =>
    match b.connectErr with
    | some e => .ok { events := [], debugLog := context.debugLog, outcome := .error e }
    | none =>
      let applied := applyDesiredContext b context.config context.debugLog
      match applied.err with
      | some e =>
        .ok { events := applied.events ++ [ConnEvent.destroyCalled]
              debugLog := applied.debugLog
              outcome := .error e }
      | none =>
        let fr := fn context applied.debugLog
        match fr.outcome with
        | .ok v =>
          .ok { events := applied.events ++ [ConnEvent.fnInvoked] ++ fr.events ++
                  [ConnEvent.destroyCalled] ++
                  (if b.destroyErr.isSome then [ConnEvent.warnDestroy] else [])
                debugLog := fr.debugLog
                outcome := .ok v }
        | .error e =>
          .ok { events := applied.events ++ [ConnEvent.fnInvoked] ++ fr.events ++
                  [ConnEvent.destroyCalled]
                debugLog := fr.debugLog
                outcome := .error e }

/-- `SnowflakeConnectionResult` (`connection.ts` lines 45-58). The
`defaultContext` and `debugLog` members are `none` exactly when the
conditional spreads of lines 326-327 omitted their keys; `summaryKeys` below
maps that to JS object key presence. -/
structure SnowflakeConnectionResult where
  status : String
  connectionId : String
  sessionId : String
  healthQueryId : String
  serverDateTime : String
  defaultContext : Option DefaultContext
  debugLog : Option (List String)
deriving DecidableEq, Repr

/-- The keys present on the summary object literal of lines 320-328: the five
plain members always, `defaultContext`/`debugLog` only when their conditional
spread fired (i.e. when the corresponding value is not `undefined`). -/
def summaryKeys (summary : SnowflakeConnectionResult) : List String :=
  ["status", "connectionId", "sessionId", "healthQueryId", "serverDateTime"] ++
  (if summary.defaultContext.isSome then ["defaultContext"] else []) ++
  (if summary.debugLog.isSome then ["debugLog"] else [])

/-- The unit of work `getSnowflakeConnection` passes to
`withSnowflakeConnection` (`connection.ts` lines 309-331): run the health
probe, downgrade its failure to a `console.warn` plus local-clock /
`UNKNOWN`-query-id fallback data, and assemble the summary. -/
def getConnectionFn (b : Behavior) (now : JsDate) (context : ConnectionContext)
    (debugLog : List String) : FnRes SnowflakeConnectionResult :=
  let connectionId := b.getId.getD context.accountIdentifier
  let fh := fetchHealth b context.config.logLevel debugLog now
  let health :=
    match fh.2.2 with
    | .ok h => h
    | .error _ =>
      { serverTime := toISOString now, sessionId := connectionId, queryId := "UNKNOWN" }
  let warnEvents := match fh.2.2 with
    | .ok _ => []
    | .error _ => [ConnEvent.warnHealth]
  { events := fh.1 ++ warnEvents
    debugLog := fh.2.1
    outcome := .ok
      { status := "connected"
        connectionId := connectionId
        sessionId := health.sessionId
        healthQueryId := health.queryId
        serverDateTime := health.serverTime
        defaultContext := buildDefaultContext b.sessionState
        debugLog := if context.verbose then some fh.2.1 else none } }

/-- `getSnowflakeConnection` (`connection.ts` lines 306-332). -/
def getSnowflakeConnection (pc : SnowflakeConnectionConfig) (env : Env) (b : Behavior)
    (now : JsDate) : Except String (RunResult SnowflakeConnectionResult) :=
  withSnowflakeConnection SnowflakeConnectionResult pc env b (getConnectionFn b now)

/-- `SnowflakeQueryResult` (`connection.ts` lines 334-341). Unlike the summary
object, every key of this record is assigned unconditionally by `executeSql`
(lines 352-359), so `sessionId` and `defaultContext` may hold `undefined`
(`none`) while their keys are still present — see `queryResultKeys`. -/
structure SnowflakeQueryResult where
  queryId : String
  sessionId : Option String
  sqlText : String
  rows : List Row
  rowCount : Nat
  defaultContext : Option DefaultContext
deriving DecidableEq, Repr

/-- The keys present on the query-result object literal of lines 352-359: all
six members are assigned unconditionally, so every key is always present
(with `undefined` values where the accessors were unavailable). -/
def queryResultKeys (_q : SnowflakeQueryResult) : List String :=
  ["queryId", "sessionId", "sqlText", "rows", "rowCount", "defaultContext"]

/-- `executeSql` (`connection.ts` lines 343-363): a passthrough execute whose
result is shaped into a `SnowflakeQueryResult`; the statement id and session
id fall back to `"UNKNOWN"` / `undefined` when the accessors are unavailable,
rows default to the empty list, and `defaultContext` is whatever session-state
introspection yields (its key always present). It does not touch the debug
log. -/
def executeSql (b : Behavior) (sqlText : String) (debugLog : List String) :
    FnRes SnowflakeQueryResult :=
  match b.execErr sqlText with
  | some e => { events := [ConnEvent.execStmt sqlText], debugLog := debugLog, outcome := .error e }
  | none =>
    let rows := (b.rows sqlText).getD []
    { events := [ConnEvent.execStmt sqlText]
      debugLog := debugLog
      outcome := .ok
        { queryId := (b.stmtId sqlText).getD "UNKNOWN"
          sessionId := b.getId
          sqlText := sqlText
          rows := rows
          rowCount := rows.length
          defaultContext := buildDefaultContext b.sessionState } }

/-- `runSql` (`connection.ts` lines 365-370). -/
def runSql (sqlText : String) (pc : SnowflakeConnectionConfig) (env : Env) (b : Behavior) :
    Except String (RunResult SnowflakeQueryResult) :=
  withSnowflakeConnection SnowflakeQueryResult pc env b (fun _context debugLog => executeSql b sqlText debugLog)

/-! ## Helper lemmas -/

/-- Every event issued by the context-statement loop is a statement
execution. -/
theorem runStatements_events_execStmt (b : Behavior) (lvl : LogLevel) :
    ∀ (stmts : List String) (log : List String) (e : ConnEvent),
      e ∈ (runStatements b lvl log stmts).events → ∃ s, e = ConnEvent.execStmt s := by
  intro stmts
  induction stmts with
  | nil => intro log e he; simp [runStatements] at he
  | cons sql rest ih =>
      intro log e he
      simp only [runStatements] at he
      rcases hx : b.execErr sql with _ | err
      · rw [hx] at he
        simp only [List.mem_cons] at he
        rcases he with he | he
        · exact ⟨sql, he⟩
        · exact ih _ e he
      · rw [hx] at he
        simp only [List.mem_singleton] at he
        exact ⟨sql, he⟩

/-- If every statement in the list executes without error, the loop issues
exactly the whole list, in order, and reports no error. -/
theorem runStatements_all_ok (b : Behavior) (lvl : LogLevel) :
    ∀ (stmts : List String) (log : List String),
      (∀ s ∈ stmts, b.execErr s = none) →
      (runStatements b lvl log stmts).events = stmts.map ConnEvent.execStmt ∧
      (runStatements b lvl log stmts).err = none := by
  intro stmts
  induction stmts with
  | nil => intro log _; simp [runStatements]
  | cons sql rest ih =>
      intro log h
      have hsql : b.execErr sql = none := h sql (List.mem_cons_self sql rest)
      have hrest := fun (l : List String) => ih l (fun s hs => h s (List.mem_cons_of_mem sql hs))
      constructor
      · simp only [runStatements, hsql]
        simpa using (hrest _).1
      · simp only [runStatements, hsql]
        simpa using (hrest _).2

/-- Two strings with equal character data are equal. -/
theorem string_eq_of_data_eq {a b : String} (h : a.data = b.data) : a = b := by
  cases a; cases b; cases h; rfl

/-- ASCII case folding cannot produce `'/'` from any other character. -/
theorem toLower_eq_slash {c : Char} (h : c.toLower = '/') : c = '/' := by
  by_cases hc : c.toNat ≥ 65 ∧ c.toNat ≤ 90
  · exfalso
    rw [Char.toLower, if_pos hc] at h
    have hval : (c.toNat + 32).isValidChar := Or.inl (by omega)
    rw [Char.ofNat, dif_pos hval] at h
    have h2 := congrArg Char.toNat h
    have h3 : ('/').toNat = 47 := rfl
    simp only [Char.ofNatAux, Char.toNat, UInt32.toNat, BitVec.toNat_ofNatLt] at h2 h3 hc
    rw [h3] at h2
    omega
  · rw [Char.toLower, if_neg hc] at h
    exact h

/-- A case-insensitive match against a pattern containing `'/'` forces a
literal `'/'` in the matched data. -/
theorem slash_mem_of_startsWithCI {pre l : List Char}
    (h : startsWithCI pre l = true) (hpre : '/' ∈ pre) : '/' ∈ l := by
  have heq : toLowerL (l.take pre.length) = pre := by
    simpa [startsWithCI] using h
  rw [← heq] at hpre
  rcases List.mem_map.mp hpre with ⟨c, hc, hlow⟩
  have := toLower_eq_slash hlow
  subst this
  exact List.mem_of_mem_take hc

/-- `stripProtocol` is the identity on slash-free data. -/
theorem stripProtocol_eq_self {s : String} (h : '/' ∉ s.data) : stripProtocol s = s := by
  rw [stripProtocol]
  rcases h1 : startsWithCI "https://".data s.data with _ | _
  · rcases h2 : startsWithCI "http://".data s.data with _ | _
    · simp
    · exact absurd (slash_mem_of_startsWithCI h2 (by decide)) h
  · exact absurd (slash_mem_of_startsWithCI h1 (by decide)) h

/-- Characters of `stripSnowflakeSuffix s` all come from `s`. -/
theorem mem_of_mem_stripSnowflakeSuffix {c : Char} {s : String}
    (h : c ∈ (stripSnowflakeSuffix s).data) : c ∈ s.data := by
  rw [stripSnowflakeSuffix] at h
  rcases hx : endsWithSnowflakeSuffix s with _ | _
  · rw [hx] at h; simpa using h
  · rw [hx] at h
    simp only [if_pos] at h
    have h2 : c ∈ s.data.reverse.drop ".snowflakecomputing.com".length := by
      simpa [List.mem_reverse] using h
    exact List.mem_reverse.mp (List.mem_of_mem_drop h2)

/-- An identifier that carries no surrounding whitespace, no slash, no colon,
and no Snowflake domain suffix is a fixed point of `normalizeAccount`. -/
theorem normalizeAccount_fixpoint {i : String}
    (hne : i ≠ "") (htrim : trimStr i = i)
    (hslash : '/' ∉ i.data) (hcolon : ':' ∉ i.data)
    (hsuf : endsWithSnowflakeSuffix i = false) :
    normalizeAccount i =
      Except.ok { identifier := i, url := i ++ ".snowflakecomputing.com" } := by
  have hproto : stripProtocol i = i := stripProtocol_eq_self hslash
  have htw1 : i.data.takeWhile (· != '/') = i.data :=
    List.takeWhile_eq_self_iff.mpr (fun x hx => by
      simp only [bne_iff_ne, ne_eq]
      intro hxe; exact hslash (hxe ▸ hx))
  have htw2 : i.data.takeWhile (· != ':') = i.data :=
    List.takeWhile_eq_self_iff.mpr (fun x hx => by
      simp only [bne_iff_ne, ne_eq]
      intro hxe; exact hcolon (hxe ▸ hx))
  have hsuffix : stripSnowflakeSuffix i = i := by
    rw [stripSnowflakeSuffix, hsuf]; simp
  rw [normalizeAccount]
  rw [htrim, hproto, htw1]
  have hmk : (⟨i.data⟩ : String) = i := by cases i; rfl
  rw [hmk, htw2, hmk, hsuffix]
  rw [if_neg (by simpa using hne)]

/-- Shape facts about any successful `normalizeAccount` run: the identifier is
nonempty and free of `/` and `:`, and the url is the identifier with the
Snowflake domain suffix appended. -/
theorem normalizeAccount_ok_shape {x : String} {r : AccountIdentity}
    (h : normalizeAccount x = Except.ok r) :
    r.identifier ≠ "" ∧ r.url = r.identifier ++ ".snowflakecomputing.com" ∧
    '/' ∉ r.identifier.data ∧ ':' ∉ r.identifier.data := by
  rw [normalizeAccount] at h
  set hostData := (stripProtocol (trimStr x)).data.takeWhile (· != '/') with hhost
  set portData := ((⟨hostData⟩ : String)).data.takeWhile (· != ':') with hport
  set ident := stripSnowflakeSuffix ⟨portData⟩ with hident
  by_cases hz : ident == ""
  · rw [if_pos hz] at h; exact absurd h (by simp)
  · rw [if_neg hz] at h
    have hr : r = { identifier := ident, url := ident ++ ".snowflakecomputing.com" } := by
      cases h; rfl
    subst hr
    refine ⟨by simpa using hz, rfl, ?_, ?_⟩
    · intro hmem
      have h1 : '/' ∈ portData := mem_of_mem_stripSnowflakeSuffix hmem
      have h2 : '/' ∈ hostData := (List.takeWhile_prefix _).subset h1
      have := List.mem_takeWhile_imp h2
      simp at this
    · intro hmem
      have h1 : ':' ∈ portData := mem_of_mem_stripSnowflakeSuffix hmem
      have := List.mem_takeWhile_imp h1
      simp at this

/-- C5 (counterexample): account normalization is not idempotent on its own
output. For the account string whose host ends in a doubled Snowflake domain
suffix, the first normalization strips one copy of the suffix, and
renormalizing the resulting identifier strips the other, yielding a different
identifier. -/
theorem normalizeAccount_idempotence_counterexample :
    normalizeAccount "a.snowflakecomputing.com.snowflakecomputing.com" =
      Except.ok { identifier := "a.snowflakecomputing.com",
                  url := "a.snowflakecomputing.com.snowflakecomputing.com" } ∧
    normalizeAccount "a.snowflakecomputing.com" =
      Except.ok { identifier := "a", url := "a.snowflakecomputing.com" } ∧
    ({ identifier := "a", url := "a.snowflakecomputing.com" } : AccountIdentity) ≠
      { identifier := "a.snowflakecomputing.com",
        url := "a.snowflakecomputing.com.snowflakecomputing.com" } :=
  ⟨rfl, rfl, by decide⟩

/-- C5 (amended): `normalizeAccount` applied to the identifier of one of its
own successful outputs returns that same output, provided the identifier
carries no surrounding whitespace and does not itself still end in
`.snowflakecomputing.com` (case-insensitively) — identifiers are always free
of `/`, `:` and protocol prefixes, so those steps never re-fire. -/
theorem normalizeAccount_idempotent_on_clean_output (x : String) (r : AccountIdentity)
    (h : normalizeAccount x = Except.ok r)
    (htrim : trimStr r.identifier = r.identifier)
    (hsuf : endsWithSnowflakeSuffix r.identifier = false) :
    normalizeAccount r.identifier = Except.ok r := by
  obtain ⟨hne, hurl, hslash, hcolon⟩ := normalizeAccount_ok_shape h
  rw [normalizeAccount_fixpoint hne htrim hslash hcolon hsuf]
  cases r with
  | mk identifier url => simp only at hurl ⊢; rw [hurl]

/-- Witness for `normalizeAccount_idempotent_on_clean_output` at the URL input
form. -/
theorem normalizeAccount_idempotent_on_clean_output_witness :
    normalizeAccount "myaccount" =
      Except.ok { identifier := "myaccount", url := "myaccount.snowflakecomputing.com" } :=
  normalizeAccount_idempotent_on_clean_output
    "https://myaccount.snowflakecomputing.com/"
    { identifier := "myaccount", url := "myaccount.snowflakecomputing.com" }
    rfl rfl rfl

/-- C6 (confirmed): the bare name, the full hostname, and the full URL forms
of the account all normalize to the identifier `"myaccount"` with url
`"myaccount.snowflakecomputing.com"`. -/
theorem normalizeAccount_equivalent_forms :
    normalizeAccount "myaccount" =
      Except.ok { identifier := "myaccount", url := "myaccount.snowflakecomputing.com" } ∧
    normalizeAccount "myaccount.snowflakecomputing.com" =
      Except.ok { identifier := "myaccount", url := "myaccount.snowflakecomputing.com" } ∧
    normalizeAccount "https://myaccount.snowflakecomputing.com/" =
      Except.ok { identifier := "myaccount", url := "myaccount.snowflakecomputing.com" } :=
  ⟨rfl, rfl, rfl⟩

/-- The pass-through condition as the specification words it: only
alphanumeric and underscore characters, starting with a letter or underscore
(no dollar sign). Stated separately from `isBareIdentifier` (the regex the
code actually tests) so the two can be compared. -/
def specBareIdentifier (value : String) : Bool :=
  match value.data with
  | [] => false
  | c :: cs => (c.isAlpha || c == '_') && cs.all (fun d => d.isAlphanum || d == '_')

/-- C7 (counterexample): `quoteIdentifier` returns `"a$"` unchanged although
it is not made of alphanumeric/underscore characters only — the code's regex
additionally admits `$` in non-initial positions, so "unchanged exactly when
alphanumeric/underscore" is false at `"a$"`. -/
theorem quoteIdentifier_dollar_counterexample :
    quoteIdentifier "a$" = "a$" ∧ specBareIdentifier "a$" = false :=
  ⟨rfl, rfl⟩

/-- Escaping quotes never shortens a string. -/
theorem escapeQuotes_length (value : String) :
    value.data.length ≤ (escapeQuotes value).data.length := by
  show value.data.length ≤ ((value.data.map _).flatten).length
  induction value.data with
  | nil => simp
  | cons c cs ih =>
      simp only [List.map_cons, List.flatten_cons, List.length_append, List.length_cons]
      have hc : 1 ≤ (if c == '"' then ['"', '"'] else [c]).length := by
        split <;> simp
      omega

/-- C7 (amended): `quoteIdentifier` returns the value unchanged exactly when
it matches the code's identifier shape — a letter or underscore followed by
alphanumerics, underscores, or dollar signs; every other value is wrapped in
double quotes with each internal double quote doubled. -/
theorem quoteIdentifier_passthrough_iff (value : String) :
    (quoteIdentifier value = value ↔ isBareIdentifier value = true) ∧
    (isBareIdentifier value = false →
      quoteIdentifier value = "\"" ++ escapeQuotes value ++ "\"") := by
  refine ⟨⟨?_, ?_⟩, ?_⟩
  · intro h
    by_contra hb
    have hb' : isBareIdentifier value = false := by simpa using hb
    rw [quoteIdentifier, hb'] at h
    simp only [Bool.false_eq_true, if_false] at h
    have hlen := congrArg (fun s => s.data.length) h
    simp only [String.data_append, List.length_append, List.length_singleton] at hlen
    have := escapeQuotes_length value
    omega
  · intro h
    rw [quoteIdentifier, h]
    simp
  · intro h
    rw [quoteIdentifier, h]
    simp

/-- Witness for `quoteIdentifier_passthrough_iff`: a value with a space is
wrapped and a bare identifier passes through. -/
theorem quoteIdentifier_passthrough_iff_witness :
    quoteIdentifier "my table" = "\"my table\"" ∧ quoteIdentifier "DEV_ROLE" = "DEV_ROLE" :=
  ⟨((quoteIdentifier_passthrough_iff "my table").2 rfl).trans rfl,
   (quoteIdentifier_passthrough_iff "DEV_ROLE").1.mpr rfl⟩

/-- C2 (confirmed): `resolveConfig` validates the effective (parameter-else-
environment) fields in the fixed priority order account, username,
password-or-key-path, role, and throws the distinct message of the first
failing check; a config whose effective role is absent, empty, or
whitespace-only — with the three earlier checks passing — fails with exactly
the role-missing message. -/
theorem resolveConfig_check_order (pc : SnowflakeConnectionConfig) (env : Env) :
    (truthy (jsOr pc.account env.SNOWFLAKE_ACCOUNT) = false →
      resolveConfig pc env =
        Except.error "Missing Snowflake account - set SNOWFLAKE_ACCOUNT or input it, dummy!") ∧
    (truthy (jsOr pc.account env.SNOWFLAKE_ACCOUNT) = true →
     truthy (jsOr pc.username env.SNOWFLAKE_USER) = false →
      resolveConfig pc env =
        Except.error "Missing Snowflake user - set SNOWFLAKE_USER or input it, dummy!") ∧
    (truthy (jsOr pc.account env.SNOWFLAKE_ACCOUNT) = true →
     truthy (jsOr pc.username env.SNOWFLAKE_USER) = true →
     truthy (jsOr pc.password env.SNOWFLAKE_PASSWORD) = false →
     truthy (jsOr pc.privateKeyPath env.SNOWFLAKE_PRIVATE_KEY_PATH) = false →
      resolveConfig pc env =
        Except.error "Missing Snowflake auth - provide SNOWFLAKE_PASSWORD or SNOWFLAKE_PRIVATE_KEY_PATH, dummy!") ∧
    (truthy (jsOr pc.account env.SNOWFLAKE_ACCOUNT) = true →
     truthy (jsOr pc.username env.SNOWFLAKE_USER) = true →
     (truthy (jsOr pc.password env.SNOWFLAKE_PASSWORD) = true ∨
      truthy (jsOr pc.privateKeyPath env.SNOWFLAKE_PRIVATE_KEY_PATH) = true) →
     (truthy (jsOr pc.role env.SNOWFLAKE_ROLE) = false ∨
      trimStr ((jsOr pc.role env.SNOWFLAKE_ROLE).getD "") = "") →
      resolveConfig pc env = Except.error ROLE_ERROR) := by
  refine ⟨?_, ?_, ?_, ?_⟩
  · intro h1
    simp [resolveConfig, h1]
  · intro h1 h2
    simp [resolveConfig, h1, h2]
  · intro h1 h2 h3 h4
    simp [resolveConfig, h1, h2, h3, h4]
  · intro h1 h2 h3 h4
    rcases h3 with h3 | h3 <;> rcases h4 with h4 | h4 <;>
      simp [resolveConfig, h1, h2, h3, h4]

/-- Witness for `resolveConfig_check_order`: a config with account, username,
and password present but a whitespace-only role fails with the role
message. -/
theorem resolveConfig_check_order_witness :
    resolveConfig
      { account := some "myaccount", username := some "dummy",
        password := some "secret", role := some "   " } {} =
      Except.error ROLE_ERROR :=
  (resolveConfig_check_order
      { account := some "myaccount", username := some "dummy",
        password := some "secret", role := some "   " } {}).2.2.2
    rfl rfl (Or.inl rfl) (Or.inr rfl)

/-- A valid concrete configuration used by the concrete instantiations. -/
def cfgOK : SnowflakeConnectionConfig :=
  { account := some "myaccount", username := some "dummy",
    password := some "secret", role := some "DEV_ROLE" }

/-- An empty environment used by the concrete instantiations. -/
def envEmpty : Env := {}

/-- C10 (confirmed): when connect reports an error, `withSnowflakeConnection`
rejects with exactly that provider error and the trace is empty — no `use`
statement is issued, the unit of work is never invoked, and destroy is never
called. -/
theorem withSnowflakeConnection_connect_error (τ : Type) (pc : SnowflakeConnectionConfig)
    (env : Env) (b : Behavior) (fn : ConnectionContext → List String → FnRes τ)
    (e : SnowflakeError) (res : RunResult τ)
    (hconn : b.connectErr = some e)
    (hres : withSnowflakeConnection τ pc env b fn = Except.ok res) :
    res.outcome = Except.error e ∧ res.events = [] ∧
    (∀ s, ConnEvent.execStmt s ∉ res.events) ∧
    ConnEvent.fnInvoked ∉ res.events ∧ ConnEvent.destroyCalled ∉ res.events := by
  rw [withSnowflakeConnection] at hres
  rcases hc : createConnectionContext pc env with msg | ⟨opts, context⟩
  · rw [hc] at hres; exact absurd hres (by simp)
  · rw [hc, hconn] at hres
    have hr : res = { events := [], debugLog := context.debugLog, outcome := Except.error e } := by
      cases hres; rfl
    subst hr
    refine ⟨rfl, rfl, ?_, by simp, by simp⟩
    intro s; simp

/-- Witness for `withSnowflakeConnection_connect_error` at a concrete failing
connect. -/
theorem withSnowflakeConnection_connect_error_witness :
    ({ events := [], debugLog := [], outcome := Except.error "network down" } :
        RunResult Unit).outcome = Except.error "network down" ∧
    ({ events := [], debugLog := [], outcome := Except.error "network down" } :
        RunResult Unit).events = [] ∧
    (∀ s, ConnEvent.execStmt s ∉
      ({ events := [], debugLog := [], outcome := Except.error "network down" } :
        RunResult Unit).events) ∧
    ConnEvent.fnInvoked ∉
      ({ events := [], debugLog := [], outcome := Except.error "network down" } :
        RunResult Unit).events ∧
    ConnEvent.destroyCalled ∉
      ({ events := [], debugLog := [], outcome := Except.error "network down" } :
        RunResult Unit).events :=
  withSnowflakeConnection_connect_error Unit cfgOK envEmpty
    { connectErr := some "network down" }
    (fun _ _ => { events := [], debugLog := [], outcome := Except.ok () })
    "network down"
    { events := [], debugLog := [], outcome := Except.error "network down" }
    rfl rfl

/-- The context-statement loop never emits a destroy event. -/
theorem destroyCalled_not_mem_runStatements (b : Behavior) (lvl : LogLevel)
    (stmts log : List String) :
    ConnEvent.destroyCalled ∉ (runStatements b lvl log stmts).events := by
  intro h
  obtain ⟨s, hs⟩ := runStatements_events_execStmt b lvl stmts log _ h
  cases hs

/-- The context-statement loop never emits a destroy warning. -/
theorem warnDestroy_not_mem_runStatements (b : Behavior) (lvl : LogLevel)
    (stmts log : List String) :
    ConnEvent.warnDestroy ∉ (runStatements b lvl log stmts).events := by
  intro h
  obtain ⟨s, hs⟩ := runStatements_events_execStmt b lvl stmts log _ h
  cases hs

/-- The context-statement loop ignores the destroy behaviour. -/
theorem runStatements_destroyErr (b : Behavior) (d : Option SnowflakeError) (lvl : LogLevel) :
    ∀ (stmts log : List String),
      runStatements { b with destroyErr := d } lvl log stmts = runStatements b lvl log stmts := by
  intro stmts
  induction stmts with
  | nil => intro log; rfl
  | cons sql rest ih =>
      intro log
      rcases hx : b.execErr sql with _ | e <;>
        simp [runStatements, hx, ih]

/-- The context-statement loop depends on the behaviour only through
`execErr`. -/
theorem runStatements_execErr_congr (b b' : Behavior) (h : b'.execErr = b.execErr)
    (lvl : LogLevel) :
    ∀ (stmts log : List String),
      runStatements b' lvl log stmts = runStatements b lvl log stmts := by
  intro stmts
  induction stmts with
  | nil => intro log; rfl
  | cons sql rest ih =>
      intro log
      rcases hx : b.execErr sql with _ | e <;>
        simp [runStatements, h, hx, ih]

/-- Context application depends on the behaviour only through `execErr`. -/
theorem applyDesiredContext_execErr_congr (b b' : Behavior) (h : b'.execErr = b.execErr)
    (config : ResolvedSnowflakeConnectionConfig) (log : List String) :
    applyDesiredContext b' config log = applyDesiredContext b config log :=
  runStatements_execErr_congr b b' h config.logLevel (contextStatements config) log

/-- C1 (counterexample): connect succeeds, the unit of work rejects, and
destroy reports an error — the promise still surfaces the unit of work's
error and destroy ran exactly once, but no destroy warning is emitted (the
failure-path destroy callback at line 244 discards destroy's error), refuting
"that error is only warned about". -/
theorem withSnowflakeConnection_destroy_warn_counterexample :
    withSnowflakeConnection Unit cfgOK envEmpty { destroyErr := some "close failed" }
      (fun _ _ => { events := [], debugLog := [], outcome := Except.error "unit of work failed" }) =
      Except.ok { events := [ConnEvent.execStmt "use role DEV_ROLE", ConnEvent.fnInvoked,
                             ConnEvent.destroyCalled],
                  debugLog := [],
                  outcome := Except.error "unit of work failed" } ∧
    (({ destroyErr := some "close failed" } : Behavior)).destroyErr = some "close failed" ∧
    ConnEvent.warnDestroy ∉
      [ConnEvent.execStmt "use role DEV_ROLE", ConnEvent.fnInvoked, ConnEvent.destroyCalled] :=
  ⟨rfl, rfl, by decide⟩


/-- Evaluation of `withSnowflakeConnection` when context application fails:
destroy once, destroy's error ignored, context error rejected. -/
theorem withSnowflakeConnection_eval_ctxfail (τ : Type) (pc : SnowflakeConnectionConfig)
    (env : Env) (b : Behavior) (fn : ConnectionContext → List String → FnRes τ)
    (opts : ConnectionOptions) (context : ConnectionContext) (e : SnowflakeError)
    (hc : createConnectionContext pc env = Except.ok (opts, context))
    (hconn : b.connectErr = none)
    (happ : (applyDesiredContext b context.config context.debugLog).err = some e) :
    withSnowflakeConnection τ pc env b fn =
      Except.ok
        { events := ((applyDesiredContext b context.config context.debugLog).events ++
            [ConnEvent.destroyCalled]),
          debugLog := (applyDesiredContext b context.config context.debugLog).debugLog,
          outcome := Except.error e } := by
  simp only [withSnowflakeConnection, hc, hconn, happ]

/-- Evaluation of `withSnowflakeConnection` when the unit of work rejects:
destroy once, destroy's error ignored, the unit of work's error rejected. -/
theorem withSnowflakeConnection_eval_fnerr (τ : Type) (pc : SnowflakeConnectionConfig)
    (env : Env) (b : Behavior) (fn : ConnectionContext → List String → FnRes τ)
    (opts : ConnectionOptions) (context : ConnectionContext) (e : SnowflakeError)
    (hc : createConnectionContext pc env = Except.ok (opts, context))
    (hconn : b.connectErr = none)
    (happ : (applyDesiredContext b context.config context.debugLog).err = none)
    (hout : (fn context (applyDesiredContext b context.config context.debugLog).debugLog).outcome =
      Except.error e) :
    withSnowflakeConnection τ pc env b fn =
      Except.ok
        { events := ((applyDesiredContext b context.config context.debugLog).events ++
            [ConnEvent.fnInvoked] ++
            (fn context (applyDesiredContext b context.config context.debugLog).debugLog).events ++
            [ConnEvent.destroyCalled]),
          debugLog :=
            (fn context (applyDesiredContext b context.config context.debugLog).debugLog).debugLog,
          outcome := Except.error e } := by
  simp only [withSnowflakeConnection, hc, hconn, happ, hout]

/-- Evaluation of `withSnowflakeConnection` when the unit of work resolves:
destroy once, destroy's error warned, the unit of work's result resolved. -/
theorem withSnowflakeConnection_eval_fnok (τ : Type) (pc : SnowflakeConnectionConfig)
    (env : Env) (b : Behavior) (fn : ConnectionContext → List String → FnRes τ)
    (opts : ConnectionOptions) (context : ConnectionContext) (v : τ)
    (hc : createConnectionContext pc env = Except.ok (opts, context))
    (hconn : b.connectErr = none)
    (happ : (applyDesiredContext b context.config context.debugLog).err = none)
    (hout : (fn context (applyDesiredContext b context.config context.debugLog).debugLog).outcome =
      Except.ok v) :
    withSnowflakeConnection τ pc env b fn =
      Except.ok
        { events := ((applyDesiredContext b context.config context.debugLog).events ++
            [ConnEvent.fnInvoked] ++
            (fn context (applyDesiredContext b context.config context.debugLog).debugLog).events ++
            [ConnEvent.destroyCalled] ++
            (if b.destroyErr.isSome then [ConnEvent.warnDestroy] else [])),
          debugLog :=
            (fn context (applyDesiredContext b context.config context.debugLog).debugLog).debugLog,
          outcome := Except.ok v } := by
  simp only [withSnowflakeConnection, hc, hconn, happ, hout]

/-- C1 (amended): for every call whose connect succeeds, destroy is invoked
exactly once before the promise settles — whether the unit of work resolves
or rejects — and the surfaced outcome never depends on destroy's error; a
destroy error is warned about when the unit of work resolved, but silently
ignored (no warning) when the surfaced outcome is an error. (The unit of work
is assumed not to call destroy or emit the destroy warning itself, which the
units of work in this module never do.) -/
theorem withSnowflakeConnection_destroy_once (τ : Type) (pc : SnowflakeConnectionConfig)
    (env : Env) (b : Behavior) (fn : ConnectionContext → List String → FnRes τ)
    (res : RunResult τ)
    (hconn : b.connectErr = none)
    (hfn : ∀ c l, ConnEvent.destroyCalled ∉ (fn c l).events ∧
      ConnEvent.warnDestroy ∉ (fn c l).events)
    (hres : withSnowflakeConnection τ pc env b fn = Except.ok res) :
    res.events.count ConnEvent.destroyCalled = 1 ∧
    (∀ d res', withSnowflakeConnection τ pc env { b with destroyErr := d } fn = Except.ok res' →
       res'.outcome = res.outcome) ∧
    ((∃ v, res.outcome = Except.ok v) → b.destroyErr.isSome = true →
       ConnEvent.warnDestroy ∈ res.events) ∧
    ((∃ er, res.outcome = Except.error er) → ConnEvent.warnDestroy ∉ res.events) := by
  rcases hc : createConnectionContext pc env with msg | ⟨opts, context⟩
  · rw [withSnowflakeConnection, hc] at hres
    exact absurd hres (by simp)
  have hnotmem : ConnEvent.destroyCalled ∉
      (applyDesiredContext b context.config context.debugLog).events :=
    destroyCalled_not_mem_runStatements b context.config.logLevel _ _
  have hnotwarn : ConnEvent.warnDestroy ∉
      (applyDesiredContext b context.config context.debugLog).events :=
    warnDestroy_not_mem_runStatements b context.config.logLevel _ _
  have happcongr : ∀ d : Option SnowflakeError,
      applyDesiredContext { b with destroyErr := d } context.config context.debugLog =
        applyDesiredContext b context.config context.debugLog :=
    fun d => applyDesiredContext_execErr_congr b { b with destroyErr := d } rfl
      context.config context.debugLog
  rcases happ : (applyDesiredContext b context.config context.debugLog).err with _ | e
  · rcases hout : (fn context (applyDesiredContext b context.config context.debugLog).debugLog).outcome
      with e | v
    · -- unit of work rejected
      rw [withSnowflakeConnection_eval_fnerr τ pc env b fn opts context e hc hconn happ hout] at hres
      cases hres
      refine ⟨?_, ?_, ?_, ?_⟩
      · simp only [List.count_append]
        rw [List.count_eq_zero.mpr hnotmem, List.count_eq_zero.mpr (hfn context _).1]
        simp
      · intro d res' hres'
        have happ' : (applyDesiredContext { b with destroyErr := d }
            context.config context.debugLog).err = none := by rw [happcongr d]; exact happ
        have hout' : (fn context (applyDesiredContext { b with destroyErr := d }
            context.config context.debugLog).debugLog).outcome = Except.error e := by
          rw [happcongr d]; exact hout
        rw [withSnowflakeConnection_eval_fnerr τ pc env { b with destroyErr := d } fn opts context e
          hc hconn happ' hout'] at hres'
        cases hres'
        rfl
      · intro hv _
        exfalso
        rcases hv with ⟨v, hv⟩
        simp at hv
      · intro _
        simp only [List.mem_append, List.mem_singleton]
        push_neg
        exact ⟨⟨⟨hnotwarn, by simp⟩, (hfn context _).2⟩, by simp⟩
    · -- unit of work resolved
      rw [withSnowflakeConnection_eval_fnok τ pc env b fn opts context v hc hconn happ hout] at hres
      cases hres
      refine ⟨?_, ?_, ?_, ?_⟩
      · simp only [List.count_append]
        rw [List.count_eq_zero.mpr hnotmem, List.count_eq_zero.mpr (hfn context _).1]
        rcases b.destroyErr with _ | d <;> simp
      · intro d res' hres'
        have happ' : (applyDesiredContext { b with destroyErr := d }
            context.config context.debugLog).err = none := by rw [happcongr d]; exact happ
        have hout' : (fn context (applyDesiredContext { b with destroyErr := d }
            context.config context.debugLog).debugLog).outcome = Except.ok v := by
          rw [happcongr d]; exact hout
        rw [withSnowflakeConnection_eval_fnok τ pc env { b with destroyErr := d } fn opts context v
          hc hconn happ' hout'] at hres'
        cases hres'
        rfl
      · intro _ hsome
        simp [hsome]
      · intro he
        exfalso
        rcases he with ⟨er, he⟩
        simp at he
  · -- context application failed
    rw [withSnowflakeConnection_eval_ctxfail τ pc env b fn opts context e hc hconn happ] at hres
    cases hres
    refine ⟨?_, ?_, ?_, ?_⟩
    · simp only [List.count_append]
      rw [List.count_eq_zero.mpr hnotmem]
      simp
    · intro d res' hres'
      have happ' : (applyDesiredContext { b with destroyErr := d }
          context.config context.debugLog).err = some e := by rw [happcongr d]; exact happ
      rw [withSnowflakeConnection_eval_ctxfail τ pc env { b with destroyErr := d } fn opts context e
        hc hconn happ'] at hres'
      cases hres'
      rfl
    · intro hv _
      exfalso
      rcases hv with ⟨v, hv⟩
      simp at hv
    · intro _
      simp only [List.mem_append, List.mem_singleton]
      push_neg
      exact ⟨hnotwarn, by simp⟩

/-- Behaviour whose destroy reports an error, for the destroy-once witness. -/
def bWarnW : Behavior := { destroyErr := some "close failed" }

/-- A unit of work that resolves, for the destroy-once witness. -/
def fnOkW : ConnectionContext → List String → FnRes Nat :=
  fun _ _ => { events := [], debugLog := [], outcome := Except.ok 42 }

/-- The settled run of the destroy-once witness. -/
def resW : RunResult Nat :=
  { events := [ConnEvent.execStmt "use role DEV_ROLE", ConnEvent.fnInvoked,
      ConnEvent.destroyCalled, ConnEvent.warnDestroy],
    debugLog := [], outcome := Except.ok 42 }

/-- Witness for `withSnowflakeConnection_destroy_once` at a concrete run whose
unit of work resolves while destroy errors: destroy once and the warning is
emitted. -/
theorem withSnowflakeConnection_destroy_once_witness :
    resW.events.count ConnEvent.destroyCalled = 1 ∧ ConnEvent.warnDestroy ∈ resW.events :=
  ⟨(withSnowflakeConnection_destroy_once Nat cfgOK envEmpty bWarnW fnOkW resW rfl
      (fun _ _ => ⟨List.not_mem_nil _, List.not_mem_nil _⟩) rfl).1,
   (withSnowflakeConnection_destroy_once Nat cfgOK envEmpty bWarnW fnOkW resW rfl
      (fun _ _ => ⟨List.not_mem_nil _, List.not_mem_nil _⟩) rfl).2.2.1 ⟨42, rfl⟩ rfl⟩

/-- Two appended strings with different five-character heads are different. -/
theorem append_ne_of_take_five (a b x q : String)
    (ha5 : a.data.take 5 ≠ b.data.take 5) (hla : 5 ≤ a.data.length) (hlb : 5 ≤ b.data.length) :
    a ++ x ≠ b ++ q := by
  intro h
  have hdata := congrArg String.data h
  rw [String.data_append, String.data_append] at hdata
  have h5 := congrArg (List.take 5) hdata
  rw [List.take_append_of_le_length hla, List.take_append_of_le_length hlb] at h5
  exact ha5 h5

/-- Every statement produced by `contextStatements` is the `use` statement of
one of the four truthy context fields. -/
theorem mem_contextStatements_shape (cfg : ResolvedSnowflakeConnectionConfig) (s : String)
    (h : s ∈ contextStatements cfg) :
    ((cfg.role != "") = true ∧ s = "use role " ++ quoteIdentifier cfg.role) ∨
    (truthy cfg.warehouse = true ∧ s = "use warehouse " ++ quoteIdentifier (cfg.warehouse.getD "")) ∨
    (truthy cfg.database = true ∧ s = "use database " ++ quoteIdentifier (cfg.database.getD "")) ∨
    (truthy cfg.schema = true ∧ s = "use schema " ++ quoteIdentifier (cfg.schema.getD "")) := by
  by_cases h1 : (cfg.role != "") = true <;>
    by_cases h2 : truthy cfg.warehouse = true <;>
      by_cases h3 : truthy cfg.database = true <;>
        by_cases h4 : truthy cfg.schema = true <;>
          simp [contextStatements, h1, h2, h3, h4] at h <;>
            tauto

/-- C3 (confirmed): with role, warehouse, database, and schema all set, the
desired-context pass builds exactly the four `use` statements in that fixed
order and issues them strictly sequentially — each is issued only after every
earlier one completed successfully, and the first failure stops the loop with
no later statement issued; a `use` statement for an unset field is never
issued for any config. -/
theorem applyDesiredContext_order (cfg : ResolvedSnowflakeConnectionConfig)
    (hr : (cfg.role != "") = true) (hw : truthy cfg.warehouse = true)
    (hd : truthy cfg.database = true) (hs : truthy cfg.schema = true) :
    contextStatements cfg =
      ["use role " ++ quoteIdentifier cfg.role,
       "use warehouse " ++ quoteIdentifier (cfg.warehouse.getD ""),
       "use database " ++ quoteIdentifier (cfg.database.getD ""),
       "use schema " ++ quoteIdentifier (cfg.schema.getD "")] ∧
    (∀ b log, (∀ s ∈ contextStatements cfg, b.execErr s = none) →
      (applyDesiredContext b cfg log).events = (contextStatements cfg).map ConnEvent.execStmt ∧
      (applyDesiredContext b cfg log).err = none) ∧
    (∀ b log e, b.execErr ("use role " ++ quoteIdentifier cfg.role) = some e →
      (applyDesiredContext b cfg log).events =
        [ConnEvent.execStmt ("use role " ++ quoteIdentifier cfg.role)] ∧
      (applyDesiredContext b cfg log).err = some e) ∧
    (∀ b log e, b.execErr ("use role " ++ quoteIdentifier cfg.role) = none →
      b.execErr ("use warehouse " ++ quoteIdentifier (cfg.warehouse.getD "")) = some e →
      (applyDesiredContext b cfg log).events =
        [ConnEvent.execStmt ("use role " ++ quoteIdentifier cfg.role),
         ConnEvent.execStmt ("use warehouse " ++ quoteIdentifier (cfg.warehouse.getD ""))] ∧
      (applyDesiredContext b cfg log).err = some e) ∧
    (∀ b log e, b.execErr ("use role " ++ quoteIdentifier cfg.role) = none →
      b.execErr ("use warehouse " ++ quoteIdentifier (cfg.warehouse.getD "")) = none →
      b.execErr ("use database " ++ quoteIdentifier (cfg.database.getD "")) = some e →
      (applyDesiredContext b cfg log).events =
        [ConnEvent.execStmt ("use role " ++ quoteIdentifier cfg.role),
         ConnEvent.execStmt ("use warehouse " ++ quoteIdentifier (cfg.warehouse.getD "")),
         ConnEvent.execStmt ("use database " ++ quoteIdentifier (cfg.database.getD ""))] ∧
      (applyDesiredContext b cfg log).err = some e) ∧
    (∀ b log e, b.execErr ("use role " ++ quoteIdentifier cfg.role) = none →
      b.execErr ("use warehouse " ++ quoteIdentifier (cfg.warehouse.getD "")) = none →
      b.execErr ("use database " ++ quoteIdentifier (cfg.database.getD "")) = none →
      b.execErr ("use schema " ++ quoteIdentifier (cfg.schema.getD "")) = some e →
      (applyDesiredContext b cfg log).events =
        [ConnEvent.execStmt ("use role " ++ quoteIdentifier cfg.role),
         ConnEvent.execStmt ("use warehouse " ++ quoteIdentifier (cfg.warehouse.getD "")),
         ConnEvent.execStmt ("use database " ++ quoteIdentifier (cfg.database.getD "")),
         ConnEvent.execStmt ("use schema " ++ quoteIdentifier (cfg.schema.getD ""))] ∧
      (applyDesiredContext b cfg log).err = some e) ∧
    (∀ (cfg2 : ResolvedSnowflakeConnectionConfig) (x : String),
      truthy cfg2.warehouse = false → ("use warehouse " ++ x) ∉ contextStatements cfg2) ∧
    (∀ (cfg2 : ResolvedSnowflakeConnectionConfig) (x : String),
      truthy cfg2.database = false → ("use database " ++ x) ∉ contextStatements cfg2) ∧
    (∀ (cfg2 : ResolvedSnowflakeConnectionConfig) (x : String),
      truthy cfg2.schema = false → ("use schema " ++ x) ∉ contextStatements cfg2) := by
  have hlist : contextStatements cfg =
      ["use role " ++ quoteIdentifier cfg.role,
       "use warehouse " ++ quoteIdentifier (cfg.warehouse.getD ""),
       "use database " ++ quoteIdentifier (cfg.database.getD ""),
       "use schema " ++ quoteIdentifier (cfg.schema.getD "")] := by
    simp [contextStatements, hr, hw, hd, hs]
  refine ⟨hlist, ?_, ?_, ?_, ?_, ?_, ?_, ?_, ?_⟩
  · intro b log hok
    exact runStatements_all_ok b cfg.logLevel (contextStatements cfg) log hok
  · intro b log e h1
    unfold applyDesiredContext
    rw [hlist]
    refine ⟨?_, ?_⟩ <;> simp [runStatements, h1]
  · intro b log e h1 h2
    unfold applyDesiredContext
    rw [hlist]
    refine ⟨?_, ?_⟩ <;> simp [runStatements, h1, h2]
  · intro b log e h1 h2 h3
    unfold applyDesiredContext
    rw [hlist]
    refine ⟨?_, ?_⟩ <;> simp [runStatements, h1, h2, h3]
  · intro b log e h1 h2 h3 h4
    unfold applyDesiredContext
    rw [hlist]
    refine ⟨?_, ?_⟩ <;> simp [runStatements, h1, h2, h3, h4]
  · intro cfg2 x hfalse hmem
    rcases mem_contextStatements_shape cfg2 _ hmem with ⟨hc, he⟩ | ⟨hc, he⟩ | ⟨hc, he⟩ | ⟨hc, he⟩
    · exact append_ne_of_take_five "use warehouse " "use role " x _ (by decide) (by decide)
        (by decide) he
    · rw [hc] at hfalse; cases hfalse
    · exact append_ne_of_take_five "use warehouse " "use database " x _ (by decide) (by decide)
        (by decide) he
    · exact append_ne_of_take_five "use warehouse " "use schema " x _ (by decide) (by decide)
        (by decide) he
  · intro cfg2 x hfalse hmem
    rcases mem_contextStatements_shape cfg2 _ hmem with ⟨hc, he⟩ | ⟨hc, he⟩ | ⟨hc, he⟩ | ⟨hc, he⟩
    · exact append_ne_of_take_five "use database " "use role " x _ (by decide) (by decide)
        (by decide) he
    · exact append_ne_of_take_five "use database " "use warehouse " x _ (by decide) (by decide)
        (by decide) he
    · rw [hc] at hfalse; cases hfalse
    · exact append_ne_of_take_five "use database " "use schema " x _ (by decide) (by decide)
        (by decide) he
  · intro cfg2 x hfalse hmem
    rcases mem_contextStatements_shape cfg2 _ hmem with ⟨hc, he⟩ | ⟨hc, he⟩ | ⟨hc, he⟩ | ⟨hc, he⟩
    · exact append_ne_of_take_five "use schema " "use role " x _ (by decide) (by decide)
        (by decide) he
    · exact append_ne_of_take_five "use schema " "use warehouse " x _ (by decide) (by decide)
        (by decide) he
    · exact append_ne_of_take_five "use schema " "use database " x _ (by decide) (by decide)
        (by decide) he
    · rw [hc] at hfalse; cases hfalse

/-- A fully-populated resolved config for the context-order witness. -/
def cfgAll : ResolvedSnowflakeConnectionConfig :=
  { account := "myaccount", username := "dummy", role := "DEV_ROLE",
    password := some "secret", privateKeyPath := none, logLevel := LogLevel.MINIMAL,
    warehouse := some "WH", database := some "DB", schema := some "PUBLIC" }

/-- Witness for `applyDesiredContext_order` at a config with all four context
fields set and every statement succeeding. -/
theorem applyDesiredContext_order_witness :
    contextStatements cfgAll =
      ["use role DEV_ROLE", "use warehouse WH", "use database DB", "use schema PUBLIC"] ∧
    (applyDesiredContext {} cfgAll []).events =
      [ConnEvent.execStmt "use role DEV_ROLE", ConnEvent.execStmt "use warehouse WH",
       ConnEvent.execStmt "use database DB", ConnEvent.execStmt "use schema PUBLIC"] ∧
    (applyDesiredContext {} cfgAll []).err = none :=
  have h := applyDesiredContext_order cfgAll rfl rfl rfl rfl
  ⟨h.1.trans rfl,
   ((h.2.1 {} [] (fun _ _ => rfl)).1).trans rfl,
   (h.2.1 {} [] (fun _ _ => rfl)).2⟩

/-- Every ISO-8601 rendering produced by `toISOString` contains the letter
`'T'` between the date and time parts. -/
theorem toISOString_contains_T (d : JsDate) : 'T' ∈ (toISOString d).data := by
  simp [toISOString, String.data_append, List.mem_append]

/-- C4 (confirmed): when connect and context application succeed but the
health-probe query fails, `getSnowflakeConnection` still resolves with a
summary whose status is `"connected"`, whose `healthQueryId` is `"UNKNOWN"`,
and whose `serverDateTime` is the local clock rendered as an ISO-8601 string
(containing `'T'`), and a health warning is reported. -/
theorem getSnowflakeConnection_health_failure (pc : SnowflakeConnectionConfig) (env : Env)
    (b : Behavior) (now : JsDate) (cfg : ResolvedSnowflakeConnectionConfig)
    (e : SnowflakeError) (res : RunResult SnowflakeConnectionResult)
    (hconn : b.connectErr = none)
    (hcfg : resolveConfig pc env = Except.ok cfg)
    (hctx : ∀ s ∈ contextStatements cfg, b.execErr s = none)
    (hhealth : b.execErr SQL = some e)
    (hres : getSnowflakeConnection pc env b now = Except.ok res) :
    (∃ summary, res.outcome = Except.ok summary ∧
      summary.status = "connected" ∧
      summary.healthQueryId = "UNKNOWN" ∧
      summary.serverDateTime = toISOString now ∧
      'T' ∈ summary.serverDateTime.data) ∧
    ConnEvent.warnHealth ∈ res.events := by
  rcases hc : createConnectionContext pc env with msg | ⟨opts, context⟩
  · rw [getSnowflakeConnection, withSnowflakeConnection, hc] at hres
    exact absurd hres (by simp)
  have hctxcfg : context.config = cfg := by
    simp only [createConnectionContext, hcfg] at hc
    rcases hna : normalizeAccount cfg.account with msg | identity
    · rw [hna] at hc; exact absurd hc (by simp)
    · rw [hna] at hc
      cases hc
      rfl
  have happ := runStatements_all_ok b context.config.logLevel
    (contextStatements context.config) context.debugLog (by rw [hctxcfg]; exact hctx)
  have hfh : fetchHealth b context.config.logLevel
      (applyDesiredContext b context.config context.debugLog).debugLog now =
      ([ConnEvent.execStmt SQL],
       (applyDesiredContext b context.config context.debugLog).debugLog ++
         (if context.config.logLevel == LogLevel.VERBOSE then
           ["[VERBOSE] Executing SQL to fetch server timestamp and session id: " ++ SQL]
         else []),
       Except.error e) := by
    rw [fetchHealth, hhealth]
  have hout : (getConnectionFn b now context
      (applyDesiredContext b context.config context.debugLog).debugLog).outcome =
      Except.ok
        { status := "connected",
          connectionId := b.getId.getD context.accountIdentifier,
          sessionId := b.getId.getD context.accountIdentifier,
          healthQueryId := "UNKNOWN",
          serverDateTime := toISOString now,
          defaultContext := buildDefaultContext b.sessionState,
          debugLog := if context.verbose then
            some ((applyDesiredContext b context.config context.debugLog).debugLog ++
              (if context.config.logLevel == LogLevel.VERBOSE then
                ["[VERBOSE] Executing SQL to fetch server timestamp and session id: " ++ SQL]
              else []))
          else none } := by
    simp only [getConnectionFn, hfh]
  rw [getSnowflakeConnection] at hres
  rw [withSnowflakeConnection_eval_fnok SnowflakeConnectionResult pc env b
    (getConnectionFn b now) opts context _ hc hconn happ.2 hout] at hres
  cases hres
  constructor
  · exact ⟨_, rfl, rfl, rfl, rfl, toISOString_contains_T now⟩
  · have hfev : (getConnectionFn b now context
        (applyDesiredContext b context.config context.debugLog).debugLog).events =
        [ConnEvent.execStmt SQL, ConnEvent.warnHealth] := by
      simp [getConnectionFn, hfh]
    simp [hfev]

/-- Behaviour whose health probe fails but everything else succeeds. -/
def bHealthW : Behavior :=
  { execErr := fun s => if s == SQL then some "boom" else none, getId := some "ABC123" }

/-- A concrete local-clock value. -/
def nowW : JsDate := { year := 2025, month := 1, day := 2, hour := 3, minute := 4, second := 5, millisecond := 6 }

/-- The resolved form of `cfgOK`. -/
def cfgResolvedW : ResolvedSnowflakeConnectionConfig :=
  { account := "myaccount", username := "dummy", role := "DEV_ROLE",
    password := some "secret", privateKeyPath := none, logLevel := LogLevel.MINIMAL,
    warehouse := none, database := none, schema := none }

/-- The settled run of the health-failure witness. -/
def resHealthW : RunResult SnowflakeConnectionResult :=
  { events := [ConnEvent.execStmt "use role DEV_ROLE", ConnEvent.fnInvoked,
      ConnEvent.execStmt SQL, ConnEvent.warnHealth, ConnEvent.destroyCalled],
    debugLog := [],
    outcome := Except.ok
      { status := "connected", connectionId := "ABC123", sessionId := "ABC123",
        healthQueryId := "UNKNOWN", serverDateTime := "2025-01-02T03:04:05.006Z",
        defaultContext := none, debugLog := none } }

/-- Witness for `getSnowflakeConnection_health_failure` at a concrete failing
probe. -/
theorem getSnowflakeConnection_health_failure_witness :
    (∃ summary, resHealthW.outcome = Except.ok summary ∧
      summary.status = "connected" ∧
      summary.healthQueryId = "UNKNOWN" ∧
      summary.serverDateTime = toISOString nowW ∧
      'T' ∈ summary.serverDateTime.data) ∧
    ConnEvent.warnHealth ∈ resHealthW.events :=
  getSnowflakeConnection_health_failure cfgOK envEmpty bHealthW nowW cfgResolvedW "boom"
    resHealthW rfl rfl (by decide) rfl rfl

/-- Behaviour without session-state introspection, for the key-presence
counterexample. -/
def bNoStateW : Behavior :=
  { getId := some "ABC123", stmtId := fun _ => some "QID", rows := fun _ => some [] }

/-- The query result of the key-presence counterexample. -/
def qNoStateW : SnowflakeQueryResult :=
  { queryId := "QID", sessionId := some "ABC123", sqlText := "select 1",
    rows := [], rowCount := 0, defaultContext := none }

/-- C8 (counterexample): in a `runSql` result built while session-state
introspection is unavailable, the `defaultContext` key is still present on the
record (holding an `undefined` value) — `executeSql` assigns every key
unconditionally — contradicting "the field is absent from the record (no key
at all)". -/
theorem runSql_defaultContext_key_counterexample :
    runSql "select 1" cfgOK envEmpty bNoStateW =
      Except.ok
        { events := [ConnEvent.execStmt "use role DEV_ROLE", ConnEvent.fnInvoked,
            ConnEvent.execStmt "select 1", ConnEvent.destroyCalled],
          debugLog := [],
          outcome := Except.ok qNoStateW } ∧
    bNoStateW.sessionState = none ∧
    qNoStateW.defaultContext = none ∧
    "defaultContext" ∈ queryResultKeys qNoStateW :=
  ⟨rfl, rfl, rfl, by decide⟩

/-- C8 (amended): in `getSnowflakeConnection` summaries the `defaultContext`
field is present exactly when the connection's session-state introspection
returned a state; in `runSql` results the `defaultContext` key is always
present, holding the introspected context when available and an undefined
value (`none`) otherwise. -/
theorem defaultContext_presence (pc : SnowflakeConnectionConfig) (env : Env) (b : Behavior)
    (now : JsDate) (res : RunResult SnowflakeConnectionResult)
    (summary : SnowflakeConnectionResult)
    (hres : getSnowflakeConnection pc env b now = Except.ok res)
    (hout : res.outcome = Except.ok summary) :
    ("defaultContext" ∈ summaryKeys summary ↔ b.sessionState.isSome = true) ∧
    (∀ (sql : String) (res' : RunResult SnowflakeQueryResult) (q : SnowflakeQueryResult),
      runSql sql pc env b = Except.ok res' → res'.outcome = Except.ok q →
      "defaultContext" ∈ queryResultKeys q ∧
      q.defaultContext = buildDefaultContext b.sessionState) := by
  rcases hc : createConnectionContext pc env with msg | ⟨opts, context⟩
  · rw [getSnowflakeConnection, withSnowflakeConnection, hc] at hres
    exact absurd hres (by simp)
  rcases hcon : b.connectErr with _ | e
  · rcases happ : (applyDesiredContext b context.config context.debugLog).err with _ | e2
    · -- connect and context application succeeded
      constructor
      · -- summary key presence
        rcases hfo : (getConnectionFn b now context
            (applyDesiredContext b context.config context.debugLog).debugLog).outcome with e3 | w
        · exfalso
          rcases hfh : (fetchHealth b context.config.logLevel
              (applyDesiredContext b context.config context.debugLog).debugLog now).2.2
            with he | hh <;>
          · simp only [getConnectionFn, hfh] at hfo
            exact absurd hfo (by simp)
        · rw [getSnowflakeConnection] at hres
          rw [withSnowflakeConnection_eval_fnok SnowflakeConnectionResult pc env b
            (getConnectionFn b now) opts context w hc hcon happ hfo] at hres
          cases hres
          have hsum : summary = w := by
            simp only at hout
            cases hout
            rfl
          subst hsum
          have hdc : summary.defaultContext = buildDefaultContext b.sessionState := by
            rcases hfh : (fetchHealth b context.config.logLevel
                (applyDesiredContext b context.config context.debugLog).debugLog now).2.2
              with he | hh <;>
            · simp only [getConnectionFn, hfh] at hfo
              cases hfo
              rfl
          rcases hss : b.sessionState with _ | st <;>
            rw [hss] at hdc <;>
              simp [summaryKeys, hdc, buildDefaultContext]
      · -- runSql key presence
        intro sql res' q hr hq
        rcases hex : b.execErr sql with _ | e4
        · have hfo' : (executeSql b sql
              (applyDesiredContext b context.config context.debugLog).debugLog).outcome =
              Except.ok
                { queryId := (b.stmtId sql).getD "UNKNOWN", sessionId := b.getId,
                  sqlText := sql, rows := (b.rows sql).getD [],
                  rowCount := ((b.rows sql).getD []).length,
                  defaultContext := buildDefaultContext b.sessionState } := by
            simp only [executeSql, hex]
          rw [runSql] at hr
          rw [withSnowflakeConnection_eval_fnok SnowflakeQueryResult pc env b
            (fun _context debugLog => executeSql b sql debugLog) opts context _
            hc hcon happ hfo'] at hr
          cases hr
          have hqq : q =
              { queryId := (b.stmtId sql).getD "UNKNOWN", sessionId := b.getId,
                sqlText := sql, rows := (b.rows sql).getD [],
                rowCount := ((b.rows sql).getD []).length,
                defaultContext := buildDefaultContext b.sessionState } := by
            simp only at hq
            cases hq
            rfl
          subst hqq
          exact ⟨by simp [queryResultKeys], rfl⟩
        · have hfo' : (executeSql b sql
              (applyDesiredContext b context.config context.debugLog).debugLog).outcome =
              Except.error e4 := by
            simp only [executeSql, hex]
          rw [runSql] at hr
          rw [withSnowflakeConnection_eval_fnerr SnowflakeQueryResult pc env b
            (fun _context debugLog => executeSql b sql debugLog) opts context e4
            hc hcon happ hfo'] at hr
          cases hr
          exact absurd hq (by simp)
    · rw [getSnowflakeConnection] at hres
      rw [withSnowflakeConnection_eval_ctxfail SnowflakeConnectionResult pc env b
        (getConnectionFn b now) opts context e2 hc hcon happ] at hres
      cases hres
      exact absurd hout (by simp)
  · rw [getSnowflakeConnection, withSnowflakeConnection, hc, hcon] at hres
    cases hres
    exact absurd hout (by simp)

/-- Behaviour with session-state introspection available, for the
key-presence witness. -/
def bStateW : Behavior :=
  { getId := some "ABC123",
    sessionState := some
      { currentWarehouse := some "WH", currentDatabase := some "DB",
        currentSchema := some "PUB", currentRole := some "R" },
    stmtId := fun _ => some "QID",
    rows := fun _ => some [] }

/-- The summary of the key-presence witness. -/
def summaryStateW : SnowflakeConnectionResult :=
  { status := "connected", connectionId := "ABC123", sessionId := "ABC123",
    healthQueryId := "QID", serverDateTime := "2025-01-02T03:04:05.006Z",
    defaultContext := some
      { warehouse := some "WH", database := some "DB", schema := some "PUB", role := some "R" },
    debugLog := none }

/-- The settled `getSnowflakeConnection` run of the key-presence witness. -/
def resStateW : RunResult SnowflakeConnectionResult :=
  { events := [ConnEvent.execStmt "use role DEV_ROLE", ConnEvent.fnInvoked,
      ConnEvent.execStmt SQL, ConnEvent.destroyCalled],
    debugLog := [],
    outcome := Except.ok summaryStateW }

/-- The settled `runSql` run of the key-presence witness. -/
def resStateSqlW : RunResult SnowflakeQueryResult :=
  { events := [ConnEvent.execStmt "use role DEV_ROLE", ConnEvent.fnInvoked,
      ConnEvent.execStmt "select 1", ConnEvent.destroyCalled],
    debugLog := [],
    outcome := Except.ok
      { queryId := "QID", sessionId := some "ABC123", sqlText := "select 1",
        rows := [], rowCount := 0,
        defaultContext := some
          { warehouse := some "WH", database := some "DB", schema := some "PUB",
            role := some "R" } } }

/-- Witness for `defaultContext_presence` with introspection available. -/
theorem defaultContext_presence_witness :
    ("defaultContext" ∈ summaryKeys summaryStateW ↔ bStateW.sessionState.isSome = true) ∧
    ("defaultContext" ∈ queryResultKeys
        { queryId := "QID", sessionId := some "ABC123", sqlText := "select 1",
          rows := [], rowCount := 0,
          defaultContext := some
            { warehouse := some "WH", database := some "DB", schema := some "PUB",
              role := some "R" } } ∧
      ({ queryId := "QID", sessionId := some "ABC123", sqlText := "select 1",
         rows := [], rowCount := 0,
         defaultContext := some
           { warehouse := some "WH", database := some "DB", schema := some "PUB",
             role := some "R" } } : SnowflakeQueryResult).defaultContext =
        buildDefaultContext bStateW.sessionState) :=
  ⟨(defaultContext_presence cfgOK envEmpty bStateW nowW resStateW summaryStateW rfl rfl).1,
   (defaultContext_presence cfgOK envEmpty bStateW nowW resStateW summaryStateW rfl rfl).2
     "select 1" resStateSqlW _ rfl rfl⟩

/-- Field projections of a successful `resolveConfig` run. -/
theorem resolveConfig_ok_fields {pc : SnowflakeConnectionConfig} {env : Env}
    {cfg : ResolvedSnowflakeConnectionConfig} (h : resolveConfig pc env = Except.ok cfg) :
    cfg.account = (jsOr pc.account env.SNOWFLAKE_ACCOUNT).getD "" ∧
    cfg.username = (jsOr pc.username env.SNOWFLAKE_USER).getD "" ∧
    cfg.role = (jsOr pc.role env.SNOWFLAKE_ROLE).getD "" ∧
    cfg.password = jsOr pc.password env.SNOWFLAKE_PASSWORD ∧
    cfg.privateKeyPath = jsOr pc.privateKeyPath env.SNOWFLAKE_PRIVATE_KEY_PATH ∧
    cfg.logLevel = normalizeLogLevel (jsOr pc.logLevel env.SNOWFLAKE_LOG_LEVEL) := by
  rw [resolveConfig] at h
  split at h
  · exact absurd h (by simp)
  · split at h
    · exact absurd h (by simp)
    · split at h
      · exact absurd h (by simp)
      · split at h
        · exact absurd h (by simp)
        · cases h
          exact ⟨rfl, rfl, rfl, rfl, rfl, rfl⟩

/-- C9 (confirmed): under an effective `VERBOSE` log level, the redacted
snapshot of the connection options is the debug log's (only) entry before
connecting, a supplied password appears in it only as the fixed redaction
marker, and consequently two runs that differ only in their (supplied,
nonempty) password values produce identical debug-log entries — the secret
never influences the log. -/
theorem createConnectionContext_redacts_password (p1 p2 : SnowflakeConnectionConfig) (env : Env)
    (hfields : { p1 with password := p2.password } = p2)
    (hv : normalizeLogLevel (jsOr p1.logLevel env.SNOWFLAKE_LOG_LEVEL) = LogLevel.VERBOSE)
    (hp1 : truthy (jsOr p1.password env.SNOWFLAKE_PASSWORD) = true)
    (hp2 : truthy (jsOr p2.password env.SNOWFLAKE_PASSWORD) = true) :
    (∀ o1 c1, createConnectionContext p1 env = Except.ok (o1, c1) →
      c1.debugLog = ["[VERBOSE] Initializing Snowflake connection with options: " ++
        sanitizedOptionsJson o1] ∧
      sanitizedOptionsJson o1 =
        sanitizedOptionsJson { o1 with password := some "***redacted***" }) ∧
    (∀ o1 c1 o2 c2, createConnectionContext p1 env = Except.ok (o1, c1) →
      createConnectionContext p2 env = Except.ok (o2, c2) →
      c1.debugLog = c2.debugLog) := by
  cases p2 with
  | mk a2 u2 pw2 k2 r2 l2 w2 d2 s2 =>
    cases hfields
    constructor
    · intro o1 c1 h1
      rcases hr1 : resolveConfig p1 env with m | cfg1
      · simp only [createConnectionContext, hr1] at h1
        exact absurd h1 (by simp)
      simp only [createConnectionContext, hr1] at h1
      rcases hn1 : normalizeAccount cfg1.account with m | id1
      · simp only [hn1] at h1
        exact absurd h1 (by simp)
      simp only [hn1] at h1
      obtain ⟨ha1, hu1, hro1, hpw1, hkp1, hll1⟩ := resolveConfig_ok_fields hr1
      have hverb : (cfg1.logLevel == LogLevel.VERBOSE) = true := by
        rw [hll1, hv]; rfl
      cases h1
      constructor
      · simp [hverb]
      · have hopw : truthy (if truthy cfg1.password = true then cfg1.password else none) = true := by
          rw [hpw1]
          simp [hp1]
        simp [sanitizedOptionsJson, hopw,
          show truthy (some "***redacted***") = true from rfl]
    · intro o1 c1 o2 c2 h1 h2
      rcases hr1 : resolveConfig p1 env with m | cfg1
      · simp only [createConnectionContext, hr1] at h1
        exact absurd h1 (by simp)
      simp only [createConnectionContext, hr1] at h1
      rcases hn1 : normalizeAccount cfg1.account with m | id1
      · simp only [hn1] at h1
        exact absurd h1 (by simp)
      simp only [hn1] at h1
      rcases hr2 : resolveConfig { p1 with password := pw2 } env with m | cfg2
      · simp only [createConnectionContext, hr2] at h2
        exact absurd h2 (by simp)
      simp only [createConnectionContext, hr2] at h2
      rcases hn2 : normalizeAccount cfg2.account with m | id2
      · simp only [hn2] at h2
        exact absurd h2 (by simp)
      simp only [hn2] at h2
      obtain ⟨ha1, hu1, hro1, hpw1, hkp1, hll1⟩ := resolveConfig_ok_fields hr1
      obtain ⟨ha2, hu2, hro2, hpw2, hkp2, hll2⟩ := resolveConfig_ok_fields hr2
      have hid : id1 = id2 := by
        rw [ha1] at hn1
        rw [ha2] at hn2
        rw [hn1] at hn2
        cases hn2
        rfl
      have hverb1 : (cfg1.logLevel == LogLevel.VERBOSE) = true := by
        rw [hll1, hv]; rfl
      have hverb2 : (cfg2.logLevel == LogLevel.VERBOSE) = true := by
        rw [hll2]
        rw [show jsOr ({ p1 with password := pw2 } :
          SnowflakeConnectionConfig).logLevel env.SNOWFLAKE_LOG_LEVEL =
          jsOr p1.logLevel env.SNOWFLAKE_LOG_LEVEL from rfl, hv]
        rfl
      have hopw1 : truthy (if truthy cfg1.password = true then cfg1.password else none) = true := by
        rw [hpw1]
        simp [hp1]
      have hp2' : truthy (jsOr pw2 env.SNOWFLAKE_PASSWORD) = true := hp2
      have hopw2 : truthy (if truthy cfg2.password = true then cfg2.password else none) = true := by
        rw [hpw2]
        simp only [show ({ p1 with password := pw2 } :
          SnowflakeConnectionConfig).password = pw2 from rfl]
        simp [hp2']
      cases h1
      cases h2
      simp only [hverb1, hverb2, if_pos]
      simp [sanitizedOptionsJson, hopw1, hopw2, hid, hu1, hu2, hro1, hro2, hkp1, hkp2]

/-- First verbose config of the redaction witness. -/
def pVerb1 : SnowflakeConnectionConfig :=
  { account := some "myaccount", username := some "dummy", password := some "secretA",
    role := some "DEV_ROLE", logLevel := some "VERBOSE" }

/-- Second verbose config of the redaction witness: same but for the
password. -/
def pVerb2 : SnowflakeConnectionConfig :=
  { account := some "myaccount", username := some "dummy", password := some "secretB",
    role := some "DEV_ROLE", logLevel := some "VERBOSE" }

/-- The connection options the redaction witness's first run builds. -/
def optsVerb1 : ConnectionOptions :=
  { account := "myaccount", username := "dummy", role := "DEV_ROLE",
    password := some "secretA", privateKeyPath := none }

/-- The connection options the redaction witness's second run builds. -/
def optsVerb2 : ConnectionOptions :=
  { account := "myaccount", username := "dummy", role := "DEV_ROLE",
    password := some "secretB", privateKeyPath := none }

/-- The redacted debug-log entry both runs of the redaction witness emit. -/
def entryVerb : String :=
  "[VERBOSE] Initializing Snowflake connection with options: \x7b\"account\":\"myaccount\",\"username\":\"dummy\",\"role\":\"DEV_ROLE\",\"password\":\"***redacted***\"\x7d"

/-- The connection context the redaction witness's first run builds. -/
def ctxVerb1 : ConnectionContext :=
  { config :=
      { account := "myaccount", username := "dummy", role := "DEV_ROLE",
        password := some "secretA", privateKeyPath := none, logLevel := LogLevel.VERBOSE,
        warehouse := none, database := none, schema := none },
    accountIdentifier := "myaccount",
    debugLog := [entryVerb],
    verbose := true }

/-- The connection context the redaction witness's second run builds. -/
def ctxVerb2 : ConnectionContext :=
  { config :=
      { account := "myaccount", username := "dummy", role := "DEV_ROLE",
        password := some "secretB", privateKeyPath := none, logLevel := LogLevel.VERBOSE,
        warehouse := none, database := none, schema := none },
    accountIdentifier := "myaccount",
    debugLog := [entryVerb],
    verbose := true }

/-- Witness for `createConnectionContext_redacts_password`: two runs differing
only in the password value leave identical debug logs. -/
theorem createConnectionContext_redacts_password_witness :
    ctxVerb1.debugLog = [entryVerb] ∧ ctxVerb1.debugLog = ctxVerb2.debugLog :=
  ⟨((createConnectionContext_redacts_password pVerb1 pVerb2 envEmpty rfl rfl rfl rfl).1
      optsVerb1 ctxVerb1 rfl).1.trans rfl,
   (createConnectionContext_redacts_password pVerb1 pVerb2 envEmpty rfl rfl rfl rfl).2
      optsVerb1 ctxVerb1 optsVerb2 ctxVerb2 rfl rfl⟩
